import Mathlib

/-!
# RemindMe scheduling engine — shallow embedding

This file embeds the reminder scheduling and consolidation engine of the
RemindMe app: the categorizer (`categorizeReminders` in `app/index.jsx`),
the grouping engine and regular-notification resync
(`groupRemindersByTimeAndType`, `createConsolidatedContent`,
`scheduleConsolidatedNotification`, `scheduleAllRegularNotifications` in
`notificationScheduler.js`), the intrusive partition
(`scheduleIntrusiveAlarm`, `rescheduleAllIntrusiveAlarms` in
`intrusiveAlarmManager.js`), and the save path (`handleSaveReminder` in
`app/index.jsx`).

Time model: a JavaScript `Date` is modelled at second granularity as the
number of local-clock seconds since the Unix epoch (`Nat`).  The device's
local clock is modelled as a fixed-offset clock (no DST transitions), so
`setDate(getDate() + 1)` is exactly +86400 seconds and the local calendar
components are pure functions of the second count.  `getDate` (day of the
month) uses the standard civil-from-days algorithm.  Milliseconds are not
modelled; no compared quantity in the source is finer than a second.

Asynchronous backend calls (`expo-notifications`,`expo-alarm-module`) are
modelled by environments that say which backend steps throw; the functions
return the observable outcome of a pass: which trigger groups had a
registration attempted, which jobs were actually registered, and whether
the pass ended in an error.
-/

namespace RemindMe

/-- The three non-null values of a reminder's `recurring` field
(`"daily" | "weekly" | "monthly"`); `Option Recurring` models the field,
with `none` for JavaScript `null` (a one-off reminder). -/
inductive Recurring where
  | daily
  | weekly
  | monthly
  deriving DecidableEq, Repr

/-- A reminder record as persisted under the `"items"` key.  `timer` is the
parsed instant of the ISO string (or `none` when absent).  Both the
`isIntrusive` field and the legacy `intrusive` field are modelled because
the regular partition's filter checks both.  `createdAt` / `updatedAt` are
informational only and are not modelled. -/
structure Reminder where
  id : String
  message : String
  timer : Option Nat
  isIntrusive : Bool
  intrusive : Bool
  recurring : Option Recurring
  deriving DecidableEq, Repr

/-! ## Local-clock `Date` accessors -/

/-- Model of `Date.prototype.getHours` on a local-clock second count. -/
def getHours (t : Nat) : Nat := t / 3600 % 24

/-- Model of `Date.prototype.getMinutes`. -/
def getMinutes (t : Nat) : Nat := t / 60 % 60

/-- Days since the epoch of the local calendar day containing `t`. -/
def epochDay (t : Nat) : Nat := t / 86400

/-- Model of `Date.prototype.getDay` (day of week, `0` = Sunday … `6` = Saturday).
Epoch day 0 (1970-01-01) was a Thursday, hence the `+ 4`. -/
def getDay (t : Nat) : Nat := (epochDay t + 4) % 7

/-- Model of `Date.prototype.getDate` (day of the month, `1`-based), by the standard
civil-from-days algorithm specialised to extracting the day component. -/
def getDate (t : Nat) : Nat :=
  let z := epochDay t + 719468
  let era := z / 146097
  let doe := z - era * 146097
  let yoe := (doe - doe / 1460 + doe / 36524 - doe / 146096) / 365
  let doy := doe - (365 * yoe + yoe / 4 - yoe / 100)
  let mp := (5 * doy + 2) / 153
  doy - (153 * mp + 2) / 5 + 1

/-- Model of `d.setHours(h, m, 0, 0)` (and `setHours(h, m, 0)` — the source never
carries sub-second precision into a comparison): replace the time of day
of `t` with `h`:`m`:00. -/
def setTimeOfDay (t h m : Nat) : Nat := epochDay t * 86400 + h * 3600 + m * 60

/-! ## Categorizer (`categorizeReminders`, `app/index.jsx`)

`isPast` / `isToday` / `isFuture` are the date-fns predicates: strictly
before `now`, same local calendar day as `now`, strictly after `now`. -/

/-- The four display buckets. -/
inductive Bucket where
  | recurring
  | today
  | upcoming
  | past
  deriving DecidableEq, Repr

/-- The classification performed by the body of the `forEach` in
`categorizeReminders` for a single reminder. -/
def categorizeOne (now : Nat) (r : Reminder) : Bucket :=
  if r.recurring.isSome then .recurring
  else
    match r.timer with
    | none => .today
    | some t =>
      if t < now ∧ ¬ epochDay t = epochDay now then .past
      else if epochDay t = epochDay now then
        if t < now then .past else .today
      else if now < t then .upcoming
      else .past

/-- The four bucket lists built by `categorizeReminders`. -/
structure Categorized where
  recurring : List Reminder
  today : List Reminder
  upcoming : List Reminder
  past : List Reminder
  deriving DecidableEq, Repr

/-- One step of the `forEach`: push the reminder onto its bucket. -/
def catStep (now : Nat) (acc : Categorized) (r : Reminder) : Categorized :=
  match categorizeOne now r with
  | .recurring => { acc with recurring := acc.recurring ++ [r] }
  | .today => { acc with today := acc.today ++ [r] }
  | .upcoming => { acc with upcoming := acc.upcoming ++ [r] }
  | .past => { acc with past := acc.past ++ [r] }

/-- Model of `categorizeReminders` (`app/index.jsx`).  The source then sorts each
bucket in place; the sorts permute the buckets without changing
membership and no claim concerns bucket order, so they are not modelled. -/
def categorizeReminders (now : Nat) (reminders : List Reminder) : Categorized :=
  reminders.foldl (catStep now) ⟨[], [], [], []⟩

/-! ## Grouping engine (`groupRemindersByTimeAndType`,
`notificationScheduler.js`)

JavaScript objects keyed by the template strings `` `${h}:${m}` ``,
`` `${day}-${h}:${m}` `` and ISO instants are modelled as association
lists with structured keys (the string formats are injective renderings
of these tuples) preserving insertion order, which is how
`Object.entries` later iterates them (none of the keys is an
integer-like property name). -/

/-- Insert-or-append on a JavaScript object used as a multimap: the first
entry with an equal key gets the reminder appended, otherwise a fresh
`(key, [r])` entry is appended at the end. -/
def pushAssoc {κ : Type} [DecidableEq κ] :
    List (κ × List Reminder) → κ → Reminder → List (κ × List Reminder)
  | [], k, r => [(k, [r])]
  | (k', g) :: rest, k, r =>
    if k' = k then (k', g ++ [r]) :: rest else (k', g) :: pushAssoc rest k r

/-- The four group maps returned by `groupRemindersByTimeAndType`:
daily keyed by `(hour, minute)`, weekly by `(weekday, hour, minute)`,
monthly by `(dayOfMonth, hour, minute)`, one-time by the exact instant. -/
structure Groups where
  daily : List ((Nat × Nat) × List Reminder)
  weekly : List ((Nat × Nat × Nat) × List Reminder)
  monthly : List ((Nat × Nat × Nat) × List Reminder)
  oneTime : List (Nat × List Reminder)
  deriving DecidableEq, Repr

/-- Daily slot key: the timer's local hour and minute, else the 9:00
default (`"9:0"`). -/
def dailyTimeKey (r : Reminder) : Nat × Nat :=
  match r.timer with
  | some t => (getHours t, getMinutes t)
  | none => (9, 0)

/-- Weekly slot key: the timer's local weekday/hour/minute; with no timer,
the next Sunday at 09:00 computed from `now`
(`setDate(getDate() + daysUntilSunday)` then `setHours(9, 0, 0, 0)`). -/
def weeklyTimeKey (now : Nat) (r : Reminder) : Nat × Nat × Nat :=
  match r.timer with
  | some t => (getDay t, getHours t, getMinutes t)
  | none =>
    let rt := setTimeOfDay (now + (7 - getDay now) % 7 * 86400) 9 0
    (getDay rt, getHours rt, getMinutes rt)

/-- Monthly slot key: the timer's local day-of-month/hour/minute; with no
timer, day 1 of the current month at 09:00 (`setDate(1)` then
`setHours(9, 0, 0, 0)`). -/
def monthlyTimeKey (now : Nat) (r : Reminder) : Nat × Nat × Nat :=
  match r.timer with
  | some t => (getDate t, getHours t, getMinutes t)
  | none =>
    let rt := setTimeOfDay (now - (getDate now - 1) * 86400) 9 0
    (getDate rt, getHours rt, getMinutes rt)

/-- The body of the `forEach` in `groupRemindersByTimeAndType`: place one
reminder in its group.  A one-off reminder is grouped only when its
instant is strictly in the future (`reminderTime > now`); a one-off
without a timer, or at/before `now`, is silently skipped. -/
def groupStep (now : Nat) (g : Groups) (r : Reminder) : Groups :=
  match r.recurring with
  | some .daily => { g with daily := pushAssoc g.daily (dailyTimeKey r) r }
  | some .weekly => { g with weekly := pushAssoc g.weekly (weeklyTimeKey now r) r }
  | some .monthly => { g with monthly := pushAssoc g.monthly (monthlyTimeKey now r) r }
  | none =>
    match r.timer with
    | some t => if now < t then { g with oneTime := pushAssoc g.oneTime t r } else g
    | none => g

/-- Model of `groupRemindersByTimeAndType` (`notificationScheduler.js`).  `now` is
the `new Date()` read inside the function. -/
def groupRemindersByTimeAndType (now : Nat) (reminders : List Reminder) : Groups :=
  reminders.foldl (groupStep now) ⟨[], [], [], []⟩

/-! ## Consolidated content and triggers (`notificationScheduler.js`) -/

/-- The `type` argument threaded through the scheduler
(`"daily" | "weekly" | "monthly" | "oneTime"`). -/
inductive SlotType where
  | daily
  | weekly
  | monthly
  | oneTime
  deriving DecidableEq, Repr

/-- Model of `getTypeEmoji`. -/
def getTypeEmoji : SlotType → String
  | .daily => "📅"
  | .weekly => "📆"
  | .monthly => "🗓️"
  | .oneTime => "⏰"

/-- Model of `getTypeTitle`. -/
def getTypeTitle : SlotType → String
  | .daily => "Daily Reminder"
  | .weekly => "Weekly Reminder"
  | .monthly => "Monthly Reminder"
  | .oneTime => "Reminder"

/-- Model of `getChannelId`. -/
def getChannelId : SlotType → String
  | .daily => "daily-reminders"
  | .weekly => "weekly-reminders"
  | .monthly => "monthly-reminders"
  | .oneTime => "one-time-reminders"

/-- The `data` attached to a scheduled notification: either a single
reminder id or the ordered member-id list of a consolidated group. -/
inductive NotifData where
  | single (reminderId : String)
  | consolidated (reminderIds : List String) (count : Nat)
  deriving DecidableEq, Repr

/-- Notification content (`title` / `body` / `data`); the constant fields
`sound`, `priority` and `badge` added by the scheduler are platform noise
and not modelled. -/
structure Content where
  title : String
  body : String
  data : NotifData
  deriving DecidableEq, Repr

/-- Model of `Array.prototype.join("\n")`. -/
def joinNewline : List String → String
  | [] => ""
  | [s] => s
  | s :: rest => s ++ "\n" ++ joinNewline rest

/-- The numbered list body of a consolidated notification:
`` reminders.map((r, index) => `${index + 1}. ${r.message}`).join("\n") ``. -/
def numberedBody (reminders : List Reminder) : String :=
  joinNewline (reminders.enum.map fun p => Nat.repr (p.1 + 1) ++ ". " ++ p.2.message)

/-- Model of `createConsolidatedContent` (`notificationScheduler.js`).  Groups are
nonempty by construction; the `[]` case mirrors `reminders[0]` being
`undefined` and is unreachable from the resync. -/
def createConsolidatedContent (reminders : List Reminder) (type : SlotType) : Content :=
  match reminders with
  | [] => { title := getTypeEmoji type ++ " " ++ getTypeTitle type, body := "", data := .single "" }
  | [r] =>
    { title := getTypeEmoji type ++ " " ++ getTypeTitle type
      body := r.message
      data := .single r.id }
  | rs =>
    { title := getTypeEmoji type ++ " " ++ Nat.repr rs.length ++ " " ++ getTypeTitle type ++ "s"
      body := numberedBody rs
      data := .consolidated (rs.map (·.id)) rs.length }

/-- An expo-notifications trigger as built by
`scheduleConsolidatedNotification`. -/
inductive Trigger where
  | daily (hour minute : Nat)
  | weekly (weekday hour minute : Nat)
  | monthly (day hour minute : Nat)
  | date (instant : Nat)
  deriving DecidableEq, Repr

/-- A registered regular notification job: its content, Android channel
and trigger. -/
structure Job where
  content : Content
  channelId : String
  trigger : Trigger
  deriving DecidableEq, Repr

/-- The weekday conversion in the weekly branch of
`scheduleConsolidatedNotification`:
`(parseInt(weekday) + 1) % 7 || 1` — `getDay`'s 0–6 (Sunday = 0) mapped
into expo's 1–7 (Sunday = 1), with a falsy `0` coerced to `1`. -/
def convertWeekday (weekday : Nat) : Nat :=
  if (weekday + 1) % 7 = 0 then 1 else (weekday + 1) % 7

/-- A trigger group as iterated by the resync: its slot key (which also
determines the `type` string the source passes alongside it). -/
inductive SlotKey where
  | daily (hour minute : Nat)
  | weekly (weekday hour minute : Nat)
  | monthly (day hour minute : Nat)
  | oneTime (instant : Nat)
  deriving DecidableEq, Repr

/-- The `type` string matching a slot key. -/
def slotType : SlotKey → SlotType
  | .daily _ _ => .daily
  | .weekly _ _ _ => .weekly
  | .monthly _ _ _ => .monthly
  | .oneTime _ => .oneTime

/-- Which backend calls of the regular pass throw.  `cancelAllThrows`
covers `cancelAllScheduledNotificationsAsync`; `scheduleThrows` makes
every `scheduleNotificationAsync` call throw (caught inside
`scheduleConsolidatedNotification`, which then returns `null`).
`initializeNotificationChannels` catches its own errors and never
throws, so it has no flag. -/
structure NotifEnv where
  cancelAllThrows : Bool
  scheduleThrows : Bool
  deriving DecidableEq, Repr

/-- Model of `scheduleConsolidatedNotification` (`notificationScheduler.js`):
build the content and trigger for one group and attempt to register it;
a past one-time group is skipped (`null`) before reaching the backend,
and a backend throw is caught and also yields `null`. -/
def scheduleConsolidatedNotification (env : NotifEnv) (now : Nat)
    (reminders : List Reminder) (key : SlotKey) : Option Job :=
  let content := createConsolidatedContent reminders (slotType key)
  let channelId := getChannelId (slotType key)
  let trigger? : Option Trigger :=
    match key with
    | .daily h m => some (.daily h m)
    | .weekly w h m => some (.weekly (convertWeekday w) h m)
    | .monthly d h m => some (.monthly d h m)
    | .oneTime t => if t ≤ now then none else some (.date t)
  match trigger? with
  | none => none
  | some trigger =>
    if env.scheduleThrows then none
    else some { content := content, channelId := channelId, trigger := trigger }

/-! ## Regular partition resync (`scheduleAllRegularNotifications`) -/

/-- The admission filter of the regular partition
(`scheduleAllRegularNotifications`): skip intrusive reminders, keep any
recurring reminder, keep a one-off only when its instant is strictly in
the future, and skip reminders with neither timer nor recurrence. -/
def regularAdmits (now : Nat) (r : Reminder) : Bool :=
  if r.isIntrusive || r.intrusive then false
  else if r.recurring.isSome then true
  else
    match r.timer with
    | some t => now < t
    | none => false

/-- Observable outcome of a regular resync pass: the groups for which a
registration was attempted (in pass order), the jobs actually
registered, and whether the pass ended by rethrowing an error. -/
structure RegResult where
  attempts : List SlotKey
  registered : List Job
  errored : Bool
  deriving DecidableEq, Repr

/-- Model of `scheduleAllRegularNotifications` (`notificationScheduler.js`).  The
whole body sits in one `try`: if the cancel-all step throws, control
jumps to the `catch`, which rethrows — nothing later in the pass runs.
Otherwise the admitted reminders are grouped and each daily, weekly,
monthly and one-time group in turn gets one registration attempt;
individual attempt failures return `null` and do not stop the loop. -/
def scheduleAllRegularNotifications (env : NotifEnv) (now : Nat)
    (reminders : List Reminder) : RegResult :=
  if env.cancelAllThrows then { attempts := [], registered := [], errored := true }
  else
    let nonIntrusiveReminders := reminders.filter (regularAdmits now)
    if nonIntrusiveReminders.isEmpty then { attempts := [], registered := [], errored := false }
    else
      let groups := groupRemindersByTimeAndType now nonIntrusiveReminders
      let entries : List (SlotKey × List Reminder) :=
        groups.daily.map (fun e => (SlotKey.daily e.1.1 e.1.2, e.2)) ++
        groups.weekly.map (fun e => (SlotKey.weekly e.1.1 e.1.2.1 e.1.2.2, e.2)) ++
        groups.monthly.map (fun e => (SlotKey.monthly e.1.1 e.1.2.1 e.1.2.2, e.2)) ++
        groups.oneTime.map (fun e => (SlotKey.oneTime e.1, e.2))
      let out := entries.foldl
        (fun (acc : List SlotKey × List Job) e =>
          match scheduleConsolidatedNotification env now e.2 e.1 with
          | some job => (acc.1 ++ [e.1], acc.2 ++ [job])
          | none => (acc.1 ++ [e.1], acc.2))
        ([], [])
      { attempts := out.1, registered := out.2, errored := false }

/-! ## Intrusive partition (`intrusiveAlarmManager.js`) -/

/-- An alarm registered with `expo-alarm-module` by
`scheduleIntrusiveAlarm`. -/
structure Alarm where
  uid : String
  day : Nat
  title : String
  description : String
  showDismiss : Bool
  showSnooze : Bool
  snoozeInterval : Nat
  repeating : Bool
  active : Bool
  deriving DecidableEq, Repr

/-- Which backend calls of the intrusive pass throw.  `cancelStepThrows`
covers the `getAllAlarms` / `removeAlarm` listing-and-removal step at the
top of `rescheduleAllIntrusiveAlarms`; `scheduleAlarmThrows` makes
`scheduleAlarm` throw (caught inside `scheduleIntrusiveAlarm`). -/
structure AlarmEnv where
  cancelStepThrows : Bool
  scheduleAlarmThrows : Bool
  deriving DecidableEq, Repr

/-- Model of `scheduleIntrusiveAlarm` (`intrusiveAlarmManager.js`).  Returns the
failure `reason` or the alarm object handed to `scheduleAlarm`.  A daily
reminder's alarm is based at `setDate(getDate() + 1)` — one calendar day
after `now` — with the timer's hour/minute substituted when a timer is
set; a non-daily reminder needs a timer, which must not be in the past,
and is scheduled as a non-repeating alarm at that instant. -/
def scheduleIntrusiveAlarm (env : AlarmEnv) (now : Nat) (r : Reminder) :
    Except String Alarm :=
  if !r.isIntrusive then .error "Not an intrusive reminder."
  else
    let isDaily := r.recurring = some Recurring.daily
    let alarmTime? : Except String Nat :=
      if isDaily then
        match r.timer with
        | some t => .ok (setTimeOfDay (now + 86400) (getHours t) (getMinutes t))
        | none => .ok (now + 86400)
      else
        match r.timer with
        | some t => if t < now then .error "Reminder time is in the past." else .ok t
        | none => .error "No timer specified for one-off alarm."
    match alarmTime? with
    | .error reason => .error reason
    | .ok alarmTime =>
      if env.scheduleAlarmThrows then .error "scheduleAlarm threw"
      else
        .ok { uid := r.id
              day := alarmTime
              title := if isDaily then "Daily Intrusive Alarm" else "Intrusive Alarm"
              description := r.message
              showDismiss := true
              showSnooze := true
              snoozeInterval := 5
              repeating := isDaily
              active := true }

/-- The admission filter of the intrusive partition (the `filter` inside
`rescheduleAllIntrusiveAlarms`): must be intrusive; every daily
recurring reminder is admitted; otherwise a reminder with a timer is
admitted iff the timer is not in the past, and a reminder without a
timer falls through to `return true`. -/
def intrusiveAdmits (now : Nat) (r : Reminder) : Bool :=
  if !r.isIntrusive then false
  else if r.recurring = some Recurring.daily then true
  else
    match r.timer with
    | some t => if t < now then false else true
    | none => true

/-- Observable outcome of an intrusive resync pass: the ids for which
`scheduleIntrusiveAlarm` was invoked, the alarms actually scheduled, and
whether the pass was aborted by a caught error (the `catch` only logs —
the caller cannot tell). -/
structure IntrResult where
  attempts : List String
  scheduled : List Alarm
  aborted : Bool
  deriving DecidableEq, Repr

/-- Model of `rescheduleAllIntrusiveAlarms` (`intrusiveAlarmManager.js`).  The
whole body sits in one `try`: if the listing/removal step throws,
control jumps to the `catch` (which logs and returns) and no
registration is attempted.  Otherwise each admitted reminder gets one
`scheduleIntrusiveAlarm` attempt; attempt failures only lower the
success count. -/
def rescheduleAllIntrusiveAlarms (env : AlarmEnv) (now : Nat)
    (reminders : List Reminder) : IntrResult :=
  if env.cancelStepThrows then { attempts := [], scheduled := [], aborted := true }
  else
    let intrusiveReminders := reminders.filter (intrusiveAdmits now)
    let out := intrusiveReminders.foldl
      (fun (acc : List String × List Alarm) r =>
        match scheduleIntrusiveAlarm env now r with
        | .ok alarm => (acc.1 ++ [r.id], acc.2 ++ [alarm])
        | .error _ => (acc.1 ++ [r.id], acc.2))
      ([], [])
    { attempts := out.1, scheduled := out.2, aborted := false }

/-! ## Save path (`handleSaveReminder`, `app/index.jsx`) -/

/-- The modal's alarm-type selector (`'reminder' | 'alarm'`). -/
inductive AlarmTypeSel where
  | reminder
  | alarm
  deriving DecidableEq, Repr

/-- The modal's repeat selector
(`'one-off' | 'daily' | 'weekly' | 'monthly'`). -/
inductive ReminderTypeSel where
  | oneOff
  | daily
  | weekly
  | monthly
  deriving DecidableEq, Repr

/-- Model of `String.prototype.trim`: strip leading and trailing whitespace.
(Semantically `String.trim`, but written by structural recursion on the
character list so that it evaluates inside the kernel.) -/
def jsTrim (s : String) : String :=
  ⟨((s.data.dropWhile Char.isWhitespace).reverse.dropWhile Char.isWhitespace).reverse⟩

/-- Model of `findIndex` + assignment at that index: replace the first element
satisfying `p`, or leave the list unchanged when none does
(`index !== -1` guard). -/
def replaceFirst (p : Reminder → Bool) (x : Reminder) : List Reminder → List Reminder
  | [] => []
  | y :: ys => if p y then x :: ys else y :: replaceFirst p x ys

/-- Model of `handleSaveReminder` (`app/index.jsx`): reject an all-whitespace
message (`none`, no mutation); otherwise build the record — whose
`timer` is always `some selectedTime`
(`timer: selectedTime.toISOString()`) — and replace-in-place (edit) or
push (create).  Returns the saved record and the persisted list. -/
def handleSaveReminder (reminderMessage : String) (selectedTime : Nat)
    (alarmType : AlarmTypeSel) (reminderType : ReminderTypeSel)
    (editingReminder : Option Reminder) (newId : String)
    (stored : List Reminder) : Option (Reminder × List Reminder) :=
  if jsTrim reminderMessage = "" then none
  else
    let reminderData : Reminder :=
      { id := match editingReminder with | some e => e.id | none => newId
        message := jsTrim reminderMessage
        timer := some selectedTime
        isIntrusive := alarmType = .alarm
        intrusive := false
        recurring :=
          match reminderType with
          | .oneOff => none
          | .daily => some .daily
          | .weekly => some .weekly
          | .monthly => some .monthly }
    let newList :=
      match editingReminder with
      | some e => replaceFirst (fun r => r.id = e.id) reminderData stored
      | none => stored ++ [reminderData]
    some (reminderData, newList)

/-! ## Helper lemmas -/

/-- The categorizer is the per-reminder classification `categorizeOne`
applied pointwise: each bucket is the filter of the input list. -/
theorem categorize_foldl_filter (now : Nat) (rs : List Reminder) :
    ∀ acc : Categorized,
      rs.foldl (catStep now) acc =
        { recurring := acc.recurring ++ rs.filter (fun r => categorizeOne now r == .recurring)
          today := acc.today ++ rs.filter (fun r => categorizeOne now r == .today)
          upcoming := acc.upcoming ++ rs.filter (fun r => categorizeOne now r == .upcoming)
          past := acc.past ++ rs.filter (fun r => categorizeOne now r == .past) } := by
  induction rs with
  | nil => intro acc; simp
  | cons r rs ih =>
    intro acc
    simp only [List.foldl_cons, List.filter_cons]
    rw [ih]
    cases h : categorizeOne now r <;> simp [catStep, h]

/-- Bucket filters of `categorizeReminders` itself. -/
theorem categorizeReminders_eq (now : Nat) (rs : List Reminder) :
    categorizeReminders now rs =
      { recurring := rs.filter (fun r => categorizeOne now r == .recurring)
        today := rs.filter (fun r => categorizeOne now r == .today)
        upcoming := rs.filter (fun r => categorizeOne now r == .upcoming)
        past := rs.filter (fun r => categorizeOne now r == .past) } := by
  unfold categorizeReminders
  rw [categorize_foldl_filter]
  simp

/-- A property of reminders preserved by association-list insertion. -/
theorem pushAssoc_members {κ : Type} [DecidableEq κ] (P : Reminder → Prop)
    (l : List (κ × List Reminder)) (k : κ) (r : Reminder)
    (hl : ∀ e ∈ l, ∀ x ∈ e.2, P x) (hr : P r) :
    ∀ e ∈ pushAssoc l k r, ∀ x ∈ e.2, P x := by
  induction l with
  | nil =>
    intro e he x hx
    simp only [pushAssoc, List.mem_singleton] at he
    subst he
    simp only [List.mem_singleton] at hx
    subst hx
    exact hr
  | cons hd tl ih =>
    obtain ⟨k', g⟩ := hd
    intro e he x hx
    simp only [pushAssoc] at he
    by_cases hk : k' = k
    · rw [if_pos hk] at he
      rcases List.mem_cons.1 he with h1 | h2
      · subst h1
        rcases List.mem_append.1 hx with hx1 | hx2
        · exact hl ⟨k', g⟩ (List.mem_cons_self _ _) x hx1
        · simp only [List.mem_singleton] at hx2
          subst hx2
          exact hr
      · exact hl e (List.mem_cons_of_mem _ h2) x hx
    · rw [if_neg hk] at he
      rcases List.mem_cons.1 he with h1 | h2
      · subst h1
        exact hl ⟨k', g⟩ (List.mem_cons_self _ _) x hx
      · exact ih (fun e' he' x' hx' => hl e' (List.mem_cons_of_mem _ he') x' hx') e h2 x hx

/-- Every member of a one-time group of the grouping engine is a one-off
reminder whose instant is strictly in the future. -/
theorem oneTime_members_future (now : Nat) (rs : List Reminder) :
    ∀ g₀ : Groups,
      (∀ e ∈ g₀.oneTime, ∀ x ∈ e.2, x.recurring = none ∧ ∃ t, x.timer = some t ∧ now < t) →
      ∀ e ∈ (rs.foldl (groupStep now) g₀).oneTime, ∀ x ∈ e.2,
        x.recurring = none ∧ ∃ t, x.timer = some t ∧ now < t := by
  induction rs with
  | nil => intro g₀ h; exact h
  | cons r rs ih =>
    intro g₀ h
    simp only [List.foldl_cons]
    apply ih
    cases hr : r.recurring with
    | some rec => cases rec <;> simp only [groupStep, hr] <;> exact h
    | none =>
      cases ht : r.timer with
      | none => simp only [groupStep, hr, ht]; exact h
      | some t =>
        by_cases hlt : now < t
        · simp only [groupStep, hr, ht, if_pos hlt]
          exact pushAssoc_members _ _ _ _ h ⟨hr, t, ht, hlt⟩
        · simp only [groupStep, hr, ht, if_neg hlt]
          exact h

/-- Replacing the first match keeps every element either an original or
the replacement. -/
theorem mem_replaceFirst (p : Reminder → Bool) (d x : Reminder) :
    ∀ l : List Reminder, x ∈ replaceFirst p d l → x ∈ l ∨ x = d := by
  intro l
  induction l with
  | nil => simp [replaceFirst]
  | cons y ys ih =>
    simp only [replaceFirst]
    by_cases hp : p y = true
    · rw [if_pos hp]
      intro hx
      rcases List.mem_cons.1 hx with h1 | h2
      · right; exact h1
      · left; exact List.mem_cons_of_mem _ h2
    · rw [if_neg hp]
      intro hx
      rcases List.mem_cons.1 hx with h1 | h2
      · left; simp [h1]
      · rcases ih h2 with h3 | h4
        · left; exact List.mem_cons_of_mem _ h3
        · right; exact h4

/-- Replacing a full time of day stays on the same calendar day. -/
theorem epochDay_setTimeOfDay (x h m : Nat) (hh : h < 24) (hm : m < 60) :
    epochDay (setTimeOfDay x h m) = epochDay x := by
  simp only [epochDay, setTimeOfDay]
  omega

/-- The hour set by `setTimeOfDay` is read back by `getHours`. -/
theorem getHours_setTimeOfDay (x h m : Nat) (hh : h < 24) (hm : m < 60) :
    getHours (setTimeOfDay x h m) = h := by
  simp only [getHours, setTimeOfDay, epochDay]
  omega

/-- The minute set by `setTimeOfDay` is read back by `getMinutes`. -/
theorem getMinutes_setTimeOfDay (x h m : Nat) (_hh : h < 24) (hm : m < 60) :
    getMinutes (setTimeOfDay x h m) = m := by
  simp only [getMinutes, setTimeOfDay, epochDay]
  omega

/-- The hour read by `getHours` is below 24. -/
theorem getHours_lt (t : Nat) : getHours t < 24 := Nat.mod_lt _ (by norm_num)

/-- The minute read by `getMinutes` is below 60. -/
theorem getMinutes_lt (t : Nat) : getMinutes t < 60 := Nat.mod_lt _ (by norm_num)

/-- The weekday read by `getDay` is below 7. -/
theorem getDay_lt (t : Nat) : getDay t < 7 := Nat.mod_lt _ (by norm_num)

/-- The weekday conversion on valid inputs: Saturday (6) collapses to 1,
every other day maps to its 1-based index. -/
theorem convertWeekday_eq (w : Nat) (hw : w < 7) :
    convertWeekday w = if w = 6 then 1 else w + 1 := by
  interval_cases w <;> decide

/-! ## Claims -/

/-- C4: for every reminder and current time, the intrusive partition's
admission filter and the regular partition's admission filter never both
accept it: the intrusive filter requires `isIntrusive` to be true and
the regular filter rejects exactly then. -/
theorem c4_partition_exclusivity (now : Nat) (r : Reminder) :
    (intrusiveAdmits now r && regularAdmits now r) = false := by
  unfold intrusiveAdmits regularAdmits
  cases h : r.isIntrusive <;> simp [h]

/-- C6: a one-off reminder (`recurring = null`) whose timer is exactly the
current instant is placed by `categorizeReminders` in the `today`
bucket, and in neither `past` nor `upcoming`. -/
theorem c6_exact_now_today (now : Nat) (rs : List Reminder) (r : Reminder)
    (hmem : r ∈ rs) (hrec : r.recurring = none) (ht : r.timer = some now) :
    r ∈ (categorizeReminders now rs).today ∧
      r ∉ (categorizeReminders now rs).past ∧
      r ∉ (categorizeReminders now rs).upcoming := by
  have hone : categorizeOne now r = .today := by
    simp [categorizeOne, hrec, ht]
  rw [categorizeReminders_eq]
  refine ⟨?_, ?_, ?_⟩
  · exact List.mem_filter.2 ⟨hmem, by simp [hone]⟩
  · intro hc
    have := (List.mem_filter.1 hc).2
    simp [hone] at this
  · intro hc
    have := (List.mem_filter.1 hc).2
    simp [hone] at this

/-- C6 witness: a concrete one-off reminder timed exactly at the current
instant lands in `today` and in neither `past` nor `upcoming`. -/
theorem c6_witness :
    (⟨"a", "meet", some 1000, false, false, none⟩ : Reminder) ∈
        (categorizeReminders 1000 [⟨"a", "meet", some 1000, false, false, none⟩]).today ∧
      (⟨"a", "meet", some 1000, false, false, none⟩ : Reminder) ∉
        (categorizeReminders 1000 [⟨"a", "meet", some 1000, false, false, none⟩]).past ∧
      (⟨"a", "meet", some 1000, false, false, none⟩ : Reminder) ∉
        (categorizeReminders 1000 [⟨"a", "meet", some 1000, false, false, none⟩]).upcoming :=
  c6_exact_now_today 1000 _ _ (by decide) rfl rfl

/-- C1 counterexample: an intrusive weekly reminder with a future timer
(`now = 100`, timer `200`) IS admitted by the intrusive partition's
filter, and the intrusive full resync DOES register an alarm for it
(a non-repeating one at the timer instant) — the claim's exclusion does
not happen. -/
theorem c1_counterexample :
    intrusiveAdmits 100 ⟨"w1", "water plants", some 200, true, false, some .weekly⟩ = true ∧
      (rescheduleAllIntrusiveAlarms ⟨false, false⟩ 100
          [⟨"w1", "water plants", some 200, true, false, some .weekly⟩]).scheduled =
        [{ uid := "w1", day := 200, title := "Intrusive Alarm",
           description := "water plants", showDismiss := true, showSnooze := true,
           snoozeInterval := 5, repeating := false, active := true }] := by
  exact ⟨rfl, rfl⟩

/-- C1 (amended): an intrusive weekly/monthly reminder with a timer is
admitted by the intrusive filter exactly when its timer is not in the
past; when admitted it is scheduled as a NON-repeating one-off alarm at
the timer instant (its recurrence is ignored), and with a past timer it
is excluded (`"Reminder time is in the past."`). -/
theorem c1_amended (env : AlarmEnv) (now t : Nat) (r : Reminder) (rec : Recurring)
    (hintr : r.isIntrusive = true) (hrec : r.recurring = some rec)
    (hnd : rec ≠ .daily) (ht : r.timer = some t)
    (henv : env.scheduleAlarmThrows = false) :
    (intrusiveAdmits now r = !decide (t < now)) ∧
      (¬ t < now →
        scheduleIntrusiveAlarm env now r =
          .ok { uid := r.id, day := t, title := "Intrusive Alarm",
                description := r.message, showDismiss := true, showSnooze := true,
                snoozeInterval := 5, repeating := false, active := true }) ∧
      (t < now →
        scheduleIntrusiveAlarm env now r = .error "Reminder time is in the past.") := by
  have hnd' : ¬ r.recurring = some Recurring.daily := by
    rw [hrec]; simp [hnd]
  refine ⟨?_, ?_, ?_⟩
  · by_cases hlt : t < now <;>
      simp [intrusiveAdmits, hintr, hnd', ht, hlt]
  · intro hlt
    simp [scheduleIntrusiveAlarm, hintr, hnd', ht, hlt, henv]
  · intro hlt
    simp [scheduleIntrusiveAlarm, hintr, hnd', ht, hlt]

/-- C1 amended witness: the concrete intrusive weekly reminder of the
counterexample is admitted (future timer) and scheduled non-repeating. -/
theorem c1_amended_witness :
    intrusiveAdmits 100 ⟨"w1", "water plants", some 200, true, false, some .weekly⟩ =
        !decide ((200 : Nat) < 100) ∧
      (¬ (200 : Nat) < 100 →
        scheduleIntrusiveAlarm ⟨false, false⟩ 100
            ⟨"w1", "water plants", some 200, true, false, some .weekly⟩ =
          .ok { uid := "w1", day := 200, title := "Intrusive Alarm",
                description := "water plants", showDismiss := true, showSnooze := true,
                snoozeInterval := 5, repeating := false, active := true }) ∧
      ((200 : Nat) < 100 →
        scheduleIntrusiveAlarm ⟨false, false⟩ 100
            ⟨"w1", "water plants", some 200, true, false, some .weekly⟩ =
          .error "Reminder time is in the past.") :=
  c1_amended ⟨false, false⟩ 100 200 _ .weekly rfl rfl (by decide) rfl rfl

/-- C9: scheduling an intrusive daily reminder always bases the alarm one
calendar day after the invocation time, at the timer's hour and minute —
the first firing is tomorrow, never today, even if today's occurrence of
that time has not yet passed. -/
theorem c9_daily_always_tomorrow (env : AlarmEnv) (now t : Nat) (r : Reminder)
    (hintr : r.isIntrusive = true) (hrec : r.recurring = some .daily)
    (ht : r.timer = some t) (henv : env.scheduleAlarmThrows = false) :
    ∃ a : Alarm,
      scheduleIntrusiveAlarm env now r = .ok a ∧
        epochDay a.day = epochDay now + 1 ∧
        getHours a.day = getHours t ∧
        getMinutes a.day = getMinutes t ∧
        a.repeating = true := by
  refine ⟨{ uid := r.id, day := setTimeOfDay (now + 86400) (getHours t) (getMinutes t),
            title := "Daily Intrusive Alarm", description := r.message,
            showDismiss := true, showSnooze := true, snoozeInterval := 5,
            repeating := true, active := true }, ?_, ?_, ?_, ?_, rfl⟩
  · simp [scheduleIntrusiveAlarm, hintr, hrec, ht, henv]
  · rw [epochDay_setTimeOfDay _ _ _ (getHours_lt t) (getMinutes_lt t)]
    simp only [epochDay]
    omega
  · exact getHours_setTimeOfDay _ _ _ (getHours_lt t) (getMinutes_lt t)
  · exact getMinutes_setTimeOfDay _ _ _ (getHours_lt t) (getMinutes_lt t)

/-- C9 witness: a concrete daily intrusive reminder whose time of day
(`02:00`, timer instant 7200) has not yet passed at `now = 3600` is still
scheduled for tomorrow. -/
theorem c9_witness :
    ∃ a : Alarm,
      scheduleIntrusiveAlarm ⟨false, false⟩ 3600
            ⟨"d1", "wake", some 7200, true, false, some .daily⟩ = .ok a ∧
        epochDay a.day = epochDay 3600 + 1 ∧
        getHours a.day = getHours 7200 ∧
        getMinutes a.day = getMinutes 7200 ∧
        a.repeating = true :=
  c9_daily_always_tomorrow ⟨false, false⟩ 3600 7200 _ rfl rfl rfl rfl

/-- C7 counterexample: a reminder with `recurring = null` and no timer but
`isIntrusive = true` IS admitted by the intrusive partition's filter
(the filter falls through to `return true` when no timer is set), so it
is not true that such reminders are admitted by neither partition. -/
theorem c7_counterexample :
    intrusiveAdmits 0 ⟨"n1", "note", none, true, false, none⟩ = true := rfl

/-- C7 (amended): a reminder with `recurring = null` and no timer is
placed by `categorizeReminders` in `today`; it is never admitted by the
regular partition's filter, and although it passes the intrusive filter
when `isIntrusive` is set, `scheduleIntrusiveAlarm` always fails on it,
so no trigger job is ever registered with either backend for it. -/
theorem c7_amended (now : Nat) (rs : List Reminder) (r : Reminder)
    (envA : AlarmEnv) (envN : NotifEnv)
    (hmem : r ∈ rs) (hrec : r.recurring = none) (ht : r.timer = none) :
    r ∈ (categorizeReminders now rs).today ∧
      regularAdmits now r = false ∧
      (∃ reason, scheduleIntrusiveAlarm envA now r = .error reason) ∧
      (rescheduleAllIntrusiveAlarms envA now [r]).scheduled = [] ∧
      (scheduleAllRegularNotifications envN now [r]).registered = [] := by
  have hone : categorizeOne now r = .today := by
    simp [categorizeOne, hrec, ht]
  have hreg : regularAdmits now r = false := by
    cases hI : r.isIntrusive <;> simp [regularAdmits, hI, hrec, ht]
  have hsched : ∃ reason, scheduleIntrusiveAlarm envA now r = .error reason := by
    cases hI : r.isIntrusive with
    | false =>
      exact ⟨"Not an intrusive reminder.", by simp [scheduleIntrusiveAlarm, hI]⟩
    | true =>
      refine ⟨"No timer specified for one-off alarm.", ?_⟩
      simp [scheduleIntrusiveAlarm, hI, hrec, ht]
  refine ⟨?_, hreg, hsched, ?_, ?_⟩
  · rw [categorizeReminders_eq]
    exact List.mem_filter.2 ⟨hmem, by simp [hone]⟩
  · obtain ⟨cs, st⟩ := envA
    cases cs with
    | true => rfl
    | false =>
      obtain ⟨reason, herr⟩ := hsched
      cases hI : r.isIntrusive with
      | false => simp [rescheduleAllIntrusiveAlarms, intrusiveAdmits, hI]
      | true =>
        have hadm : intrusiveAdmits now r = true := by
          simp [intrusiveAdmits, hI, hrec, ht]
        simp [rescheduleAllIntrusiveAlarms, hadm, herr]
  · obtain ⟨ca, st⟩ := envN
    cases ca with
    | true => rfl
    | false => simp [scheduleAllRegularNotifications, hreg]

/-- C7 amended witness: the concrete timerless intrusive one-off of the
counterexample is shown in `today`, rejected by the regular filter, and
registered with neither backend. -/
theorem c7_amended_witness :
    (⟨"n1", "note", none, true, false, none⟩ : Reminder) ∈
        (categorizeReminders 0 [⟨"n1", "note", none, true, false, none⟩]).today ∧
      regularAdmits 0 ⟨"n1", "note", none, true, false, none⟩ = false ∧
      (∃ reason, scheduleIntrusiveAlarm ⟨false, false⟩ 0
          ⟨"n1", "note", none, true, false, none⟩ = .error reason) ∧
      (rescheduleAllIntrusiveAlarms ⟨false, false⟩ 0
          [⟨"n1", "note", none, true, false, none⟩]).scheduled = [] ∧
      (scheduleAllRegularNotifications ⟨false, false⟩ 0
          [⟨"n1", "note", none, true, false, none⟩]).registered = [] :=
  c7_amended 0 _ _ ⟨false, false⟩ ⟨false, false⟩ (by decide) rfl rfl

/-- C2 counterexample: with the same single admissible reminder and the
same invocation time, the regular pass attempts one daily group when the
cancel-all step succeeds but attempts nothing and rethrows when the
cancel-all step throws; likewise the intrusive pass attempts nothing
when its listing/removal step throws — a cancel failure DOES prevent the
pass's registration attempts. -/
theorem c2_counterexample :
    (scheduleAllRegularNotifications ⟨false, false⟩ 0
        [⟨"d1", "stretch", none, false, false, some .daily⟩]).attempts = [.daily 9 0] ∧
      (scheduleAllRegularNotifications ⟨true, false⟩ 0
          [⟨"d1", "stretch", none, false, false, some .daily⟩]).attempts = [] ∧
      (scheduleAllRegularNotifications ⟨true, false⟩ 0
          [⟨"d1", "stretch", none, false, false, some .daily⟩]).errored = true ∧
      (rescheduleAllIntrusiveAlarms ⟨false, false⟩ 0
          [⟨"i1", "wake", none, true, false, some .daily⟩]).attempts = ["i1"] ∧
      (rescheduleAllIntrusiveAlarms ⟨true, false⟩ 0
          [⟨"i1", "wake", none, true, false, some .daily⟩]).attempts = [] :=
  ⟨rfl, rfl, rfl, rfl, rfl⟩

/-- C2 (amended): both resync passes sit in a single `try`, so a failure
of the listing or cancel-all step aborts the whole pass — no per-group
registration is attempted afterwards; the regular pass rethrows the
error while the intrusive pass merely logs it. -/
theorem c2_amended (envN : NotifEnv) (envA : AlarmEnv) (now : Nat)
    (rs : List Reminder)
    (hN : envN.cancelAllThrows = true) (hA : envA.cancelStepThrows = true) :
    scheduleAllRegularNotifications envN now rs =
        { attempts := [], registered := [], errored := true } ∧
      rescheduleAllIntrusiveAlarms envA now rs =
        { attempts := [], scheduled := [], aborted := true } := by
  constructor
  · simp [scheduleAllRegularNotifications, hN]
  · simp [rescheduleAllIntrusiveAlarms, hA]

/-- C2 amended witness: concrete throwing environments abort both passes
with no registration attempts. -/
theorem c2_amended_witness :
    scheduleAllRegularNotifications ⟨true, false⟩ 0
          [⟨"d1", "stretch", none, false, false, some .daily⟩] =
        { attempts := [], registered := [], errored := true } ∧
      rescheduleAllIntrusiveAlarms ⟨true, false⟩ 0
          [⟨"d1", "stretch", none, false, false, some .daily⟩] =
        { attempts := [], scheduled := [], aborted := true } :=
  c2_amended ⟨true, false⟩ ⟨true, false⟩ 0 _ rfl rfl

/-- C5: a non-intrusive one-off reminder whose instant is at or before the
invocation time is silently pruned: the regular filter rejects it, it is
a member of no one-time trigger group produced by the grouping engine on
any input list, and a regular resync pass over it registers nothing and
reports no error. -/
theorem c5_expired_oneoff_pruned (env : NotifEnv) (now t : Nat)
    (rs : List Reminder) (r : Reminder)
    (hrec : r.recurring = none) (ht : r.timer = some t) (hpast : t ≤ now)
    (hi : r.isIntrusive = false) (hi2 : r.intrusive = false)
    (henv : env.cancelAllThrows = false) :
    regularAdmits now r = false ∧
      (∀ e ∈ (groupRemindersByTimeAndType now rs).oneTime, r ∉ e.2) ∧
      scheduleAllRegularNotifications env now [r] =
        { attempts := [], registered := [], errored := false } := by
  have hreg : regularAdmits now r = false := by
    simp only [regularAdmits, hi, hi2, hrec, ht]
    simp
    omega
  refine ⟨hreg, ?_, ?_⟩
  · intro e he hx
    have hfut := oneTime_members_future now rs ⟨[], [], [], []⟩ (by simp) e he r hx
    obtain ⟨-, t', ht', hlt⟩ := hfut
    rw [ht] at ht'
    have : t = t' := Option.some.inj ht'
    omega
  · simp [scheduleAllRegularNotifications, henv, hreg]

/-- C5 witness: a concrete expired non-intrusive one-off (timer 50, now
100) is rejected, appears in no one-time group, and the resync over it
registers nothing without error. -/
theorem c5_witness :
    regularAdmits 100 ⟨"o1", "call", some 50, false, false, none⟩ = false ∧
      (∀ e ∈ (groupRemindersByTimeAndType 100
          [⟨"o1", "call", some 50, false, false, none⟩]).oneTime,
        (⟨"o1", "call", some 50, false, false, none⟩ : Reminder) ∉ e.2) ∧
      scheduleAllRegularNotifications ⟨false, false⟩ 100
          [⟨"o1", "call", some 50, false, false, none⟩] =
        { attempts := [], registered := [], errored := false } :=
  c5_expired_oneoff_pruned ⟨false, false⟩ 100 50 _ _ rfl rfl (by decide) rfl rfl rfl

/-- C8: a non-intrusive weekly reminder with a timer is registered with a
weekly trigger whose `weekday` is `(getDay + 1) % 7` with a falsy `0`
coerced to `1`: a Saturday timer (`getDay = 6`) yields weekday `1`
(Sunday in the backend's 1–7 convention), not `7`; Sunday–Friday timers
yield `getDay + 1`, which does match the timer's day of week. -/
theorem c8_weekly_weekday (env : NotifEnv) (now t : Nat) (r : Reminder)
    (hrec : r.recurring = some .weekly) (hi : r.isIntrusive = false)
    (hi2 : r.intrusive = false) (ht : r.timer = some t)
    (hc : env.cancelAllThrows = false) (hs : env.scheduleThrows = false) :
    (scheduleAllRegularNotifications env now [r]).registered =
      [{ content := { title := "📆 Weekly Reminder", body := r.message,
                      data := .single r.id }
         channelId := "weekly-reminders"
         trigger := .weekly (if getDay t = 6 then 1 else getDay t + 1)
                      (getHours t) (getMinutes t) }] := by
  have hconv := convertWeekday_eq (getDay t) (getDay_lt t)
  simp [scheduleAllRegularNotifications, hc, hs, regularAdmits, hi, hi2, hrec, ht,
    groupRemindersByTimeAndType, groupStep, weeklyTimeKey, pushAssoc,
    scheduleConsolidatedNotification, createConsolidatedContent, slotType,
    getChannelId, getTypeEmoji, getTypeTitle, hconv]

/-- C8 witness: a concrete Saturday-timed weekly reminder (epoch day 2 was
a Saturday) gets weekday 1. -/
theorem c8_witness :
    (scheduleAllRegularNotifications ⟨false, false⟩ 0
        [⟨"s1", "shop", some 180000, false, false, some .weekly⟩]).registered =
      [{ content := { title := "📆 Weekly Reminder", body := "shop",
                      data := .single "s1" }
         channelId := "weekly-reminders"
         trigger := .weekly (if getDay 180000 = 6 then 1 else getDay 180000 + 1)
                      (getHours 180000) (getMinutes 180000) }] :=
  c8_weekly_weekday ⟨false, false⟩ 0 180000 _ rfl rfl rfl rfl rfl rfl

/-- C3: two non-intrusive daily reminders whose timers share the same
local hour and minute (dates may differ) land in the same daily trigger
group keyed by that hour/minute, and a regular resync over them
registers exactly one daily job whose member-id metadata holds both ids
and whose body lists the two messages numbered `1.` and `2.`. -/
theorem c3_daily_consolidation (env : NotifEnv) (now t₁ t₂ : Nat)
    (r₁ r₂ : Reminder)
    (h₁r : r₁.recurring = some .daily) (h₂r : r₂.recurring = some .daily)
    (h₁i : r₁.isIntrusive = false) (h₁i2 : r₁.intrusive = false)
    (h₂i : r₂.isIntrusive = false) (h₂i2 : r₂.intrusive = false)
    (h₁t : r₁.timer = some t₁) (h₂t : r₂.timer = some t₂)
    (hh : getHours t₂ = getHours t₁) (hm : getMinutes t₂ = getMinutes t₁)
    (hc : env.cancelAllThrows = false) (hs : env.scheduleThrows = false) :
    (groupRemindersByTimeAndType now [r₁, r₂]).daily =
        [((getHours t₁, getMinutes t₁), [r₁, r₂])] ∧
      (scheduleAllRegularNotifications env now [r₁, r₂]).registered =
        [{ content := { title := "📅 2 Daily Reminders"
                        body := "1. " ++ r₁.message ++ "\n" ++ ("2. " ++ r₂.message)
                        data := .consolidated [r₁.id, r₂.id] 2 }
           channelId := "daily-reminders"
           trigger := .daily (getHours t₁) (getMinutes t₁) }] := by
  constructor
  · simp [groupRemindersByTimeAndType, groupStep, dailyTimeKey, h₁r, h₂r,
      h₁t, h₂t, hh, hm, pushAssoc]
  · simp [scheduleAllRegularNotifications, hc, hs, regularAdmits,
      h₁i, h₁i2, h₂i, h₂i2, h₁r, h₂r, h₁t, h₂t,
      groupRemindersByTimeAndType, groupStep, dailyTimeKey, hh, hm, pushAssoc,
      scheduleConsolidatedNotification, createConsolidatedContent, slotType,
      getChannelId, getTypeEmoji, getTypeTitle, numberedBody, joinNewline,
      List.enum, List.enumFrom]
    exact ⟨rfl, rfl⟩

/-- C3 witness: two concrete daily reminders on different dates at the
same 09:00 local time are consolidated into one daily job. -/
theorem c3_witness :
    (groupRemindersByTimeAndType 0
        [⟨"a1", "tea", some 32400, false, false, some .daily⟩,
         ⟨"b2", "walk", some 118800, false, false, some .daily⟩]).daily =
        [((getHours 32400, getMinutes 32400),
          [⟨"a1", "tea", some 32400, false, false, some .daily⟩,
           ⟨"b2", "walk", some 118800, false, false, some .daily⟩])] ∧
      (scheduleAllRegularNotifications ⟨false, false⟩ 0
          [⟨"a1", "tea", some 32400, false, false, some .daily⟩,
           ⟨"b2", "walk", some 118800, false, false, some .daily⟩]).registered =
        [{ content := { title := "📅 2 Daily Reminders"
                        body := "1. " ++ "tea" ++ "\n" ++ ("2. " ++ "walk")
                        data := .consolidated ["a1", "b2"] 2 }
           channelId := "daily-reminders"
           trigger := .daily (getHours 32400) (getMinutes 32400) }] :=
  c3_daily_consolidation ⟨false, false⟩ 0 32400 118800 _ _ rfl rfl rfl rfl rfl rfl
    rfl rfl (by decide) (by decide) rfl rfl

/-- C10: the save path always persists a timer — the saved record's
`timer` is `some selectedTime` for create and edit, recurring and
one-off alike; every element of the persisted list is an original or
carries that timer; and for any reminder with a timer the grouping
engine's slot keys are derived from the timer, so the no-timer defaults
(daily 9:00, weekly next-Sunday 9:00, monthly day 1) are unreachable for
reminders produced by this path. -/
theorem c10_save_always_has_timer (msg : String) (sel : Nat)
    (atype : AlarmTypeSel) (rtype : ReminderTypeSel)
    (editing : Option Reminder) (newId : String) (stored : List Reminder)
    (h : ¬ jsTrim msg = "") :
    (∃ data newList,
        handleSaveReminder msg sel atype rtype editing newId stored =
            some (data, newList) ∧
          data.timer = some sel ∧
          ∀ r ∈ newList, r ∈ stored ∨ r.timer = some sel) ∧
      (∀ now (r : Reminder) t, r.timer = some t →
        dailyTimeKey r = (getHours t, getMinutes t) ∧
          weeklyTimeKey now r = (getDay t, getHours t, getMinutes t) ∧
          monthlyTimeKey now r = (getDate t, getHours t, getMinutes t)) := by
  constructor
  · unfold handleSaveReminder
    rw [if_neg h]
    refine ⟨_, _, rfl, rfl, ?_⟩
    intro r hr
    cases editing with
    | none =>
      rcases List.mem_append.1 hr with h1 | h2
      · exact Or.inl h1
      · simp only [List.mem_singleton] at h2
        subst h2
        exact Or.inr rfl
    | some e =>
      rcases mem_replaceFirst _ _ _ _ hr with h1 | h2
      · exact Or.inl h1
      · subst h2
        exact Or.inr rfl
  · intro now r t htr
    refine ⟨?_, ?_, ?_⟩ <;> simp [dailyTimeKey, weeklyTimeKey, monthlyTimeKey, htr]

/-- C10 witness: a concrete create stores the selected time as timer, and
a concrete timered reminder's keys come from the timer. -/
theorem c10_witness :
    (∃ data newList,
        handleSaveReminder "  hi  " 500 .reminder .daily none "id9" [] =
            some (data, newList) ∧
          data.timer = some 500 ∧
          ∀ r ∈ newList, r ∈ ([] : List Reminder) ∨ r.timer = some 500) ∧
      (∀ now (r : Reminder) t, r.timer = some t →
        dailyTimeKey r = (getHours t, getMinutes t) ∧
          weeklyTimeKey now r = (getDay t, getHours t, getMinutes t) ∧
          monthlyTimeKey now r = (getDate t, getHours t, getMinutes t)) :=
  c10_save_always_has_timer "  hi  " 500 .reminder .daily none "id9" [] (by decide)

end RemindMe
